import Mathlib

/-!
Verification of the desktop application shell bootstrap
(src/src-tauri/src/main.rs).

The source registers two Tauri command handlers and starts the host
event loop:

  fn health_check() -> String { "ok".to_string() }
  fn desktop_capabilities() -> Vec<&'static str> { vec![ ... six tokens ... ] }
  fn main() {
    tauri::Builder::default()
      .invoke_handler(tauri::generate_handler![health_check, desktop_capabilities])
      .run(tauri::generate_context!())
      .expect("error while running tauri application");
  }

The two commands are embedded as total Lean functions.  The dispatch
layer produced by generate_handler! (match on the command name string,
unknown names rejected before any handler runs) is embedded as invoke.
The host runtime itself is external to the repository; main is embedded
as a function of the host run outcome, reflecting exactly what the call
site does with it (propagate a host-driven exit, return normally on Ok,
panic with the expect diagnostic on Err).
-/

/-- Embeds health_check (main.rs lines 3-6): returns the literal string "ok". -/
def health_check : String := "ok"

/-- Embeds desktop_capabilities (main.rs lines 8-18): returns the fixed
vector of six capability tokens, in source order. -/
def desktop_capabilities : List String :=
  ["filesystem", "notifications", "clipboard", "deep-linking", "autoupdate",
   "window-controls"]

/-- A value produced by a command handler: either a single string
(health_check) or a list of strings (desktop_capabilities).  No error
constructor exists because neither source function has a fallible
return type. -/
inductive CommandResult where
  | str (s : String)
  | strList (l : List String)
deriving DecidableEq

/-- The invocation names registered by
generate_handler![health_check, desktop_capabilities] in main
(main.rs lines 20-24), in registration order. -/
def registeredCommandNames : List String :=
  ["health_check", "desktop_capabilities"]

/-- The dispatch layer generated by generate_handler!: an invocation is
matched against the registered command names; an exact match runs the
corresponding handler, any other name is rejected (none) without
entering either handler. -/
def invoke (cmd : String) : Option CommandResult :=
  if cmd = "health_check" then some (CommandResult.str health_check)
  else if cmd = "desktop_capabilities" then
    some (CommandResult.strList desktop_capabilities)
  else none

/-- The application state shared between invocations.  The source
declares no mutable statics and neither handler takes or stores
anything, so the shared state is empty. -/
def AppState : Type := Unit

/-- One invocation step: dispatch the named command against the current
state.  Neither handler reads or writes state, so the state passes
through unchanged. -/
def stepCommand (cmd : String) (s : AppState) : Option CommandResult × AppState :=
  (invoke cmd, s)

/-- A finite sequence of invocations executed in order, threading the
application state through each step. -/
def runTrace : List String → AppState → List (Option CommandResult)
  | [], _ => []
  | c :: cs, s =>
    let p := stepCommand c s
    p.1 :: runTrace cs p.2

/-- The ways the external host runtime can end the run call made by
main: either the host terminates the process itself with its own
status, or run returns to main with a Result (Ok on clean shutdown,
Err if the host could not initialize). -/
inductive HostRun where
  | exits (status : Int)
  | returns (r : Except String Unit)

/-- How the process terminates, as determined by main.  hostStatus:
the host ended the process with its own status, untouched by main.
runtimeDefaultExit: main returned normally; the language runtime
supplies the (component-independent) success code.  panicAbort: the
expect call aborted the process with a diagnostic. -/
inductive ProcessTermination where
  | hostStatus (status : Int)
  | runtimeDefaultExit
  | panicAbort (diagnostic : String)
deriving DecidableEq

/-- The panic message passed to expect in main (main.rs line 24). -/
def expectMessage : String := "error while running tauri application"

/-- Embeds the body of main (main.rs lines 20-25) as a function of the
host run outcome: a host-driven exit is propagated unchanged; if run
returns Ok, main returns and the process exits normally; if run
returns Err e, expect panics with its message and the error. -/
def mainTermination : HostRun → ProcessTermination
  | HostRun.exits s => ProcessTermination.hostStatus s
  | HostRun.returns (Except.ok _) => ProcessTermination.runtimeDefaultExit
  | HostRun.returns (Except.error e) =>
      ProcessTermination.panicAbort (expectMessage ++ ": " ++ e)

/-- C1: health_check takes no inputs and returns exactly the string
"ok" on every invocation. -/
theorem health_check_returns_ok : health_check = "ok" := rfl

/-- C2: desktop_capabilities takes no inputs and returns exactly the
six-element ordered sequence of capability tokens, with positional
equality. -/
theorem desktop_capabilities_exact_sequence :
    desktop_capabilities =
      ["filesystem", "notifications", "clipboard", "deep-linking",
       "autoupdate", "window-controls"] := rfl

/-- C3: the two registered names are the entire invocable surface:
dispatch of each exact name reaches the matching operation, and
dispatch of any other name fails at the dispatch layer, returning
none without entering either operation. -/
theorem dispatch_surface_complete :
    invoke "health_check" = some (CommandResult.str health_check) ∧
    invoke "desktop_capabilities" =
      some (CommandResult.strList desktop_capabilities) ∧
    ∀ cmd : String, cmd ≠ "health_check" → cmd ≠ "desktop_capabilities" →
      invoke cmd = none := by
  refine ⟨rfl, rfl, ?_⟩
  intro cmd h1 h2
  simp [invoke, h1, h2]

/-- C3 witness: a concrete unregistered name is rejected by the
dispatch layer. -/
theorem dispatch_surface_complete_witness : invoke "open_file" = none :=
  dispatch_surface_complete.2.2 "open_file" (by decide) (by decide)

/-- C4: neither operation can fail: dispatching each registered name
always yields a result (isSome), and CommandResult carries no error
case, so an error branch is unreachable. -/
theorem operations_cannot_fail :
    (invoke "health_check").isSome = true ∧
    (invoke "desktop_capabilities").isSome = true := by decide

/-- C5: determinism and absence of cross-call state: executing any
finite sequence of invocations from any state yields, position by
position, exactly the result of invoking each name in isolation —
results never depend on order, interleaving or prior calls. -/
theorem invocations_stateless :
    ∀ (cmds : List String) (s : AppState),
      runTrace cmds s = cmds.map invoke := by
  intro cmds
  induction cmds with
  | nil => intro s; rfl
  | cons c cs ih =>
      intro s
      simp [runTrace, stepCommand, ih]

/-- C6: if the host cannot initialize (run returns an error), main
aborts with the expect diagnostic carrying the host error, with no
retry; and a panic abort can only arise from a host error return,
never from either operation or any other outcome. -/
theorem init_failure_fatal :
    (∀ e : String,
      mainTermination (HostRun.returns (Except.error e)) =
        ProcessTermination.panicAbort
          ("error while running tauri application: " ++ e)) ∧
    ∀ (h : HostRun) (d : String),
      mainTermination h = ProcessTermination.panicAbort d →
        ∃ e : String, h = HostRun.returns (Except.error e) := by
  constructor
  · intro e; rfl
  · intro h d hd
    cases h with
    | exits s => simp [mainTermination] at hd
    | returns r =>
        cases r with
        | ok u => simp [mainTermination] at hd
        | error e => exact ⟨e, rfl⟩

/-- C6 witness: a concrete host initialization error produces the
fatal abort, and that abort indeed stems from a host error return. -/
theorem init_failure_fatal_witness :
    ∃ e : String,
      HostRun.returns (Except.error "boom") =
        HostRun.returns (Except.error e) :=
  init_failure_fatal.2 (HostRun.returns (Except.error "boom"))
    ("error while running tauri application: boom") (by decide)

/-- C7: the process exit code is propagated unchanged from the host
runtime: every host-driven status passes through identically, and any
termination carrying a numeric status can only have come from the
host — the bootstrap defines no exit codes of its own. -/
theorem exit_code_propagated :
    (∀ s : Int, mainTermination (HostRun.exits s) =
      ProcessTermination.hostStatus s) ∧
    ∀ (h : HostRun) (s : Int),
      mainTermination h = ProcessTermination.hostStatus s →
        h = HostRun.exits s := by
  constructor
  · intro s; rfl
  · intro h s hs
    cases h with
    | exits t => simp [mainTermination] at hs; rw [hs]
    | returns r =>
        cases r with
        | ok u => simp [mainTermination] at hs
        | error e => simp [mainTermination] at hs

/-- C7 witness: a concrete host status 3 is propagated unchanged, and
the status-3 termination is traced back to the host exit. -/
theorem exit_code_propagated_witness :
    HostRun.exits 3 = HostRun.exits 3 :=
  exit_code_propagated.2 (HostRun.exits 3) 3 (by decide)

/-- C8: every invocation terminates: the handlers and dispatcher are
total, non-recursive functions, so every finite invocation sequence
completes, producing exactly one definite result per invocation. -/
theorem invocations_terminate :
    ∀ (cmds : List String) (s : AppState),
      (runTrace cmds s).length = cmds.length := by
  intro cmds
  induction cmds with
  | nil => intro s; rfl
  | cons c cs ih =>
      intro s
      simp [runTrace, ih]

/-- C9: the six capability tokens are pairwise distinct and every
token is a non-empty string. -/
theorem capabilities_distinct_nonempty :
    desktop_capabilities.Nodup ∧
    desktop_capabilities.all (fun t => !t.isEmpty) = true := by
  constructor
  · decide
  · rfl

/-- C10: the two registered invocation names are distinct, so dispatch
is unambiguous (no name maps to more than one handler), and the
health_check result "ok" is not among the capability tokens. -/
theorem registration_unambiguous :
    registeredCommandNames.Nodup ∧
    desktop_capabilities.contains health_check = false := by
  constructor
  · decide
  · rfl
